import Mathlib

/-!
Shallow embedding of the afkty backend core (dead-man's-switch session
controller): session state machine with quiet hours, timeout alert path,
WebSocket router v2 (command dispatch, rate limiter, close handling),
user-token regeneration, and the life-or-death alert loop.

Each definition mirrors one JavaScript function of the source; ambient
inputs of the original (current time, store contents, push-delivery
outcome) are passed explicitly, and side effects are returned as values
(frame lists, effect traces, updated stores).
-/

namespace Afkty

/-- JavaScript string truthiness for an optional string field:
`null`/absent and the empty string are falsy. -/
def jsTruthy : Option String → Bool
  | none => false
  | some s => !s.data.isEmpty

/-- JavaScript `s.split(sep)` for a one-character separator, over the
string's characters: splitting the empty string yields one empty part,
and separators at either end yield empty parts. -/
def splitCharsOn (sep : Char) : List Char → List (List Char)
  | [] => [[]]
  | c :: cs =>
    let rest := splitCharsOn sep cs
    if c = sep then [] :: rest
    else
      match rest with
      | r :: rs => (c :: r) :: rs
      | [] => [[c]]

/-- JavaScript `Number(s)` restricted to the shapes an `HH:MM` field
part can take: the empty string converts to 0, a digit string to its
value, anything else to NaN (modelled as `none`; every comparison
against NaN in the source is false, which the callers reproduce). -/
def jsNumber (l : List Char) : Option Nat :=
  l.foldl (fun acc c =>
    match acc with
    | some n => if c.isDigit then some (n * 10 + (c.toNat - 48)) else none
    | none => none) (some 0)

/-- `s.split(':').map(Number)` destructured as `[hour, min]`, combined to
a minute-of-day; `none` when either part is NaN (including the missing
second part of a colon-free string, which destructures to NaN). -/
def parseMinutesOfDay (s : String) : Option Nat :=
  match splitCharsOn ':' s.data with
  | h :: m :: _ =>
    match jsNumber h, jsNumber m with
    | some hh, some mm => some (hh * 60 + mm)
    | _, _ => none
  | _ => none

/-- The `user` selection loaded by `SessionService.handleTimeout`. -/
structure TimeoutUser where
  id : String
  username : String
  alertSound : Option String
  quietHoursEnabled : Bool
  quietHoursStart : Option String
  quietHoursEnd : Option String
  lifeOrDeathMode : Bool
  deriving Repr, DecidableEq

/-- `SessionService.isQuietHours(user)`, with the ambient current time
passed as a minute-of-day. Mirrors the guard on
`quietHoursEnabled`/`quietHoursStart`/`quietHoursEnd`, the `HH:MM`
parsing, and the overnight wrap when start > end. -/
def isQuietHours (user : TimeoutUser) (currentMinutes : Nat) : Bool :=
  if !(user.quietHoursEnabled && jsTruthy user.quietHoursStart
        && jsTruthy user.quietHoursEnd) then
    false
  else
    match parseMinutesOfDay (user.quietHoursStart.getD ""),
          parseMinutesOfDay (user.quietHoursEnd.getD "") with
    | some startMinutes, some endMinutes =>
      if startMinutes > endMinutes then
        decide (currentMinutes ≥ startMinutes) || decide (currentMinutes < endMinutes)
      else
        decide (currentMinutes ≥ startMinutes) && decide (currentMinutes < endMinutes)
    | _, _ => false

/-- Session status enumeration of the store. -/
inductive SessionStatus
  | ACTIVE
  | DISCONNECTED
  | TIMEOUT
  deriving Repr, DecidableEq

/-- The session row as loaded (with user and hub) by
`SessionService.handleTimeout`. -/
structure TimeoutSession where
  id : String
  userId : String
  gameName : Option String
  currentStatus : Option String
  user : TimeoutUser
  hubName : Option String
  deriving Repr, DecidableEq

/-- `x || d` on an optional string, as used for the
`'Unknown Game'` / `'Unknown Script'` defaults. -/
def orDefault (o : Option String) (d : String) : String :=
  match o with
  | some s => if s.isEmpty then d else s
  | none => d

/-- Payload handed to `deviceService.sendCriticalAlertToUser`. -/
structure AlertData where
  sessionId : String
  gameName : String
  hubName : String
  reason : String
  lastStatus : Option String
  alertSound : Option String
  deriving Repr, DecidableEq

/-- Fields written to the session row by the timeout path. -/
structure SessionUpdateData where
  status : SessionStatus
  disconnectReason : String
  disconnectMessage : String
  alertSent : Bool
  alertDelivered : Option Bool
  alertError : Option String
  deriving Repr, DecidableEq

/-- Observable store/push operations performed by
`SessionService.handleTimeout`, in program order. -/
inductive TimeoutEffect
  | logCreated (level : String) (message : String)
  | pushCritical (data : AlertData)
  | alertLoopStart (userId sessionId reason gameName : String)
  | sessionUpdated (sessionId : String) (data : SessionUpdateData)
  deriving Repr, DecidableEq

/-- Result of the push fan-out, as consumed by `handleTimeout`. -/
structure AlertSendResult where
  success : Bool
  resultsSerialized : String
  deriving Repr, DecidableEq

/-- Return value of `handleTimeout` (apart from the echoed session). -/
structure TimeoutOutcome where
  alertSent : Bool
  quietHours : Bool
  deriving Repr, DecidableEq

/-- `SessionService.handleTimeout(wsClientId)` after the initial load:
the located session (or `none`), the ambient minute-of-day, and the push
fan-out outcome are inputs; the ordered effect trace and the returned
outcome are outputs. -/
def handleTimeout (found : Option TimeoutSession) (currentMinutes : Nat)
    (alertResult : AlertSendResult) : List TimeoutEffect × Option TimeoutOutcome :=
  match found with
  | none => ([], none)
  | some session =>
    if session.user.quietHoursEnabled && isQuietHours session.user currentMinutes then
      ([TimeoutEffect.sessionUpdated session.id
          { status := SessionStatus.TIMEOUT
            disconnectReason := "TIMEOUT"
            disconnectMessage := "Heartbeat timeout (quiet hours - no alert)"
            alertSent := false
            alertDelivered := none
            alertError := none }],
       some { alertSent := false, quietHours := true })
    else
      let gameName := orDefault session.gameName "Unknown Game"
      let alertData : AlertData :=
        { sessionId := session.id
          gameName := gameName
          hubName := orDefault session.hubName "Unknown Script"
          reason := "Connection lost - possible crash, kick, or internet failure"
          lastStatus := session.currentStatus
          alertSound := session.user.alertSound }
      let logMsg := "🚨 TIMEOUT: " ++ gameName
          ++ " - Connection lost (possible crash, kick, or internet failure)"
      let loopEffects :=
        if session.user.lifeOrDeathMode then
          [TimeoutEffect.alertLoopStart session.userId session.id
            alertData.reason alertData.gameName]
        else []
      ([TimeoutEffect.logCreated "error" logMsg,
        TimeoutEffect.pushCritical alertData]
        ++ loopEffects
        ++ [TimeoutEffect.sessionUpdated session.id
            { status := SessionStatus.TIMEOUT
              disconnectReason := "TIMEOUT"
              disconnectMessage := "Heartbeat timeout"
              alertSent := true
              alertDelivered := some alertResult.success
              alertError := if alertResult.success then none
                            else some alertResult.resultsSerialized }],
       some { alertSent := true, quietHours := false })

/-- The session row, restricted to the columns the disconnect and
regeneration paths read or write. -/
structure SessionRow where
  id : String
  userId : String
  wsClientId : String
  status : SessionStatus
  disconnectReason : Option String
  disconnectMessage : Option String
  deriving Repr, DecidableEq

/-- The fields a disconnect transition writes. -/
def disconnectWrite (reason : String) (message : Option String)
    (s : SessionRow) : SessionRow :=
  { s with status := SessionStatus.DISCONNECTED
           disconnectReason := some reason
           disconnectMessage := message }

/-- `SessionService.disconnectSession(wsClientId, reason, message)`:
find the session by WebSocket client id; absent yields `null` and no
write; otherwise the row is updated unconditionally. Returns the
updated row (as the source returns the update result) and the store. -/
def disconnectSession (db : List SessionRow) (wsClientId : String)
    (reason : String) (message : Option String) :
    Option SessionRow × List SessionRow :=
  match db.find? (fun s => s.wsClientId = wsClientId) with
  | none => (none, db)
  | some s =>
    (some (disconnectWrite reason message s),
     db.map (fun r => if r.wsClientId = wsClientId then
       disconnectWrite reason message r else r))

/-- `SessionService.disconnectSessionById(sessionId, reason, message)`:
same update addressed by the canonical session id. -/
def disconnectSessionById (db : List SessionRow) (sessionId : String)
    (reason : String) (message : Option String) :
    Option SessionRow × List SessionRow :=
  match db.find? (fun s => s.id = sessionId) with
  | none => (none, db)
  | some s =>
    (some (disconnectWrite reason message s),
     db.map (fun r => if r.id = sessionId then
       disconnectWrite reason message r else r))

/-- The user row columns touched by token regeneration. -/
structure UserRow where
  id : String
  userToken : String
  deriving Repr, DecidableEq

/-- Result of `UserService.regenerateUserToken`. -/
structure RegenResult where
  sessions : List SessionRow
  users : List UserRow
  userToken : String
  deriving Repr, DecidableEq

/-- `UserService.regenerateUserToken(userId)` with the freshly generated
token passed in: first the `updateMany` that disconnects every ACTIVE
session of the user with reason TOKEN_REVOKED, then the user-row token
update, then the return of the new token. -/
def regenerateUserToken (db : List SessionRow) (users : List UserRow)
    (userId : String) (newToken : String) : RegenResult :=
  let db' := db.map (fun s =>
    if s.userId = userId && s.status = SessionStatus.ACTIVE then
      { s with status := SessionStatus.DISCONNECTED
               disconnectReason := some "TOKEN_REVOKED"
               disconnectMessage := some "User token regenerated" }
    else s)
  let users' := users.map (fun u =>
    if u.id = userId then { u with userToken := newToken } else u)
  { sessions := db', users := users', userToken := newToken }

/-! ### WebSocket router v2 -/

/-- `client.type` values. -/
inductive ClientType
  | roblox
  | mobile
  deriving Repr, DecidableEq

/-- Per-socket metadata held in the router's `clients` map. -/
structure ClientInfo where
  id : String
  ctype : Option ClientType
  userId : Option String
  hubId : Option String
  sessionId : Option String
  authenticated : Bool
  deriving Repr, DecidableEq

/-- Socket handles; the `clients` map iterates in insertion order. -/
abbrev Socket := Nat

/-- Server-originated frames the modelled handlers can emit. -/
inductive Frame
  | command (command : String) (data : Option String)
  | commandSent (sessionId : String)
  | errorFrame (code message : String)
  | statusUpdate (sessionId : Option String) (status : String)
  | sessionConnectionLost (sessionId : Option String)
  deriving Repr, DecidableEq

/-- `notifyMobileApps(userId, data)`: best-effort send to every
authenticated mobile client of that user. -/
def notifyMobileApps (clients : List (Socket × ClientInfo))
    (userId : Option String) (frame : Frame) : List (Socket × Frame) :=
  (clients.filter (fun e =>
    e.2.ctype = some ClientType.mobile && e.2.userId = userId
      && e.2.authenticated)).map (fun e => (e.1, frame))

/-- `WebSocketServiceV2.handleCommand`: require an authenticated mobile
client, validate params, then scan the clients map for the first entry
whose `sessionId` matches and whose type is `roblox`; forward the
command there and acknowledge, else reply SESSION_NOT_FOUND. -/
def handleCommand (clients : List (Socket × ClientInfo)) (ws : Socket)
    (client : ClientInfo) (sessionId command data : Option String) :
    List (Socket × Frame) :=
  if !client.authenticated then
    [(ws, Frame.errorFrame "NOT_AUTHENTICATED" "Not authenticated")]
  else if client.ctype ≠ some ClientType.mobile then
    [(ws, Frame.errorFrame "INVALID_MESSAGE"
        "This command is for mobile clients only")]
  else if !(jsTruthy sessionId && jsTruthy command) then
    [(ws, Frame.errorFrame "INVALID_PARAMS"
        "sessionId and command are required")]
  else
    match clients.find? (fun e =>
        e.2.sessionId = sessionId && e.2.ctype = some ClientType.roblox) with
    | some t =>
      [(t.1, Frame.command (command.getD "") data),
       (ws, Frame.commandSent (sessionId.getD ""))]
    | none =>
      [(ws, Frame.errorFrame "SESSION_NOT_FOUND" "Session not connected")]

/-- `RATE_LIMITS` table: per-class fixed-window maxima; classes absent
from the table (heartbeat, disconnect, ...) are unrated. -/
structure RateLimitCfg where
  max : Nat
  windowMs : Nat
  deriving Repr, DecidableEq

def RATE_LIMITS : String → Option RateLimitCfg
  | "status" => some { max := 6, windowMs := 60000 }
  | "log" => some { max := 30, windowMs := 60000 }
  | "notify" => some { max := 5, windowMs := 60000 }
  | "alert" => some { max := 5, windowMs := 60000 }
  | _ => none

/-- One fixed-window counter. -/
structure RateRecord where
  count : Nat
  resetTime : Nat
  deriving Repr, DecidableEq

/-- The `rateLimits` map, keyed by `clientId:type`. -/
abbrev RateState := List ((String × String) × RateRecord)

/-- Map write with replace semantics. -/
def rlSet (st : RateState) (k : String × String) (v : RateRecord) :
    RateState :=
  (k, v) :: st.filter (fun e => e.1 ≠ k)

/-- `WebSocketServiceV2.checkRateLimit(clientId, type)` with the ambient
`Date.now()` passed in; returns the decision and the updated map. -/
def checkRateLimit (st : RateState) (clientId mtype : String) (now : Nat) :
    Bool × RateState :=
  match RATE_LIMITS mtype with
  | none => (true, st)
  | some limit =>
    let key := (clientId, mtype)
    match st.find? (fun e => e.1 = key) with
    | none => (true, rlSet st key { count := 1, resetTime := now + limit.windowMs })
    | some e =>
      if now > e.2.resetTime then
        (true, rlSet st key { count := 1, resetTime := now + limit.windowMs })
      else if e.2.count ≥ limit.max then
        (false, st)
      else
        (true, rlSet st key { count := e.2.count + 1, resetTime := e.2.resetTime })

/-- Outcome of one `handleStatus` dispatch. -/
structure StatusOutcome where
  rateState : RateState
  sends : List (Socket × Frame)
  socketClosed : Bool
  statusWritten : Bool
  deriving Repr, DecidableEq

/-- `WebSocketServiceV2.handleStatus`: auth check, rate check (rejection
sends a RATE_LIMITED error and neither writes nor fans out nor closes),
then the store write and the `status_update` fan-out. -/
def handleStatus (st : RateState) (clients : List (Socket × ClientInfo))
    (ws : Socket) (client : ClientInfo) (status : String) (now : Nat) :
    StatusOutcome :=
  if !client.authenticated then
    { rateState := st
      sends := [(ws, Frame.errorFrame "NOT_AUTHENTICATED" "Not authenticated")]
      socketClosed := false, statusWritten := false }
  else if client.ctype ≠ some ClientType.roblox then
    { rateState := st
      sends := [(ws, Frame.errorFrame "INVALID_MESSAGE"
        "This command is for roblox clients only")]
      socketClosed := false, statusWritten := false }
  else
    match checkRateLimit st client.id "status" now with
    | (false, st') =>
      { rateState := st'
        sends := [(ws, Frame.errorFrame "RATE_LIMITED"
          "Status updates limited to 6 per minute")]
        socketClosed := false, statusWritten := false }
    | (true, st') =>
      { rateState := st'
        sends := notifyMobileApps clients client.userId
          (Frame.statusUpdate client.sessionId status)
        socketClosed := false, statusWritten := true }

/-- One pending heartbeat timer: the `setTimeout` handle is modelled by
its fire deadline together with the captured session identity. -/
structure TimerInfo where
  sessionId : String
  userId : String
  deadline : Nat
  deriving Repr, DecidableEq

/-- `heartbeatTimers` map, keyed by client id. -/
abbrev TimerMap := List (String × TimerInfo)

/-- `stopHeartbeatMonitor(clientId)`. -/
def stopHeartbeatMonitor (timers : TimerMap) (clientId : String) : TimerMap :=
  timers.filter (fun e => e.1 ≠ clientId)

/-- `startHeartbeatMonitor(clientId, sessionId, userId)`: replace any
timer for that client id by a fresh one due after the configured
heartbeat timeout. -/
def startHeartbeatMonitor (timers : TimerMap)
    (clientId sessionId userId : String) (now timeoutMs : Nat) : TimerMap :=
  (clientId, { sessionId := sessionId, userId := userId,
               deadline := now + timeoutMs })
    :: stopHeartbeatMonitor timers clientId

/-- Result of `handleClose`. -/
structure CloseResult where
  clients : List (Socket × ClientInfo)
  heartbeatTimers : TimerMap
  sends : List (Socket × Frame)
  deriving Repr, DecidableEq

/-- `WebSocketServiceV2.handleClose(ws)`: if the socket was an
authenticated producer, fan `session_connection_lost` out to the user's
consumers; then drop the socket's metadata. The heartbeat timers are
deliberately left untouched ("let Dead Man's Switch trigger"), and
nothing else is scheduled. -/
def handleClose (clients : List (Socket × ClientInfo)) (timers : TimerMap)
    (ws : Socket) : CloseResult :=
  match clients.find? (fun e => e.1 = ws) with
  | none => { clients := clients, heartbeatTimers := timers, sends := [] }
  | some e =>
    let sends :=
      if e.2.ctype = some ClientType.roblox && e.2.authenticated then
        notifyMobileApps clients e.2.userId
          (Frame.sessionConnectionLost e.2.sessionId)
      else []
    { clients := clients.filter (fun c => c.1 ≠ ws)
      heartbeatTimers := timers
      sends := sends }

/-- The deferred check inside
`DeadMansSwitchService.handleAbruptDisconnect`: after the grace period,
a session that is freshly monitored again is left alone; otherwise the
timeout path runs when the connection record still exists. Returns
whether the timeout path is invoked. -/
def abruptDisconnectCheck (monitoredSessionIds : List String)
    (sessionId : String) (connectionExists : Bool) : Bool :=
  if monitoredSessionIds.contains sessionId then false
  else connectionExists

/-! ### Alert loop -/

/-- An ActiveAlert row. `maxNotifications` defaults to 30 in the store. -/
structure ActiveAlert where
  id : String
  userId : String
  sessionId : String
  reason : String
  gameName : String
  startedAt : Nat
  notificationsSent : Nat
  maxNotifications : Nat
  acknowledged : Bool
  deriving Repr, DecidableEq

/-- Result of `startAlertLoop`. -/
structure StartLoopResult where
  result : Option ActiveAlert
  alerts : List ActiveAlert
  loopsInstalled : List String
  deriving Repr, DecidableEq

/-- `AlertLoopService.startAlertLoop(userId, sessionId, reason,
gameName)`: bail out unless the user still has lifeOrDeathMode enabled
(`user?.lifeOrDeathMode` is falsy for a missing user); return any
existing unacknowledged alert of the user unchanged; otherwise persist a
new alert with `notificationsSent = 1` (store default cap 30) and
install its interval. The fresh row id is passed in. -/
def startAlertLoop (userLifeOrDeath : Option Bool)
    (alerts : List ActiveAlert) (userId sessionId reason gameName : String)
    (newId : String) (now : Nat) : StartLoopResult :=
  if userLifeOrDeath ≠ some true then
    { result := none, alerts := alerts, loopsInstalled := [] }
  else
    match alerts.find? (fun a => a.userId = userId && !a.acknowledged) with
    | some existing =>
      { result := some existing, alerts := alerts, loopsInstalled := [] }
    | none =>
      let alert : ActiveAlert :=
        { id := newId, userId := userId, sessionId := sessionId
          reason := reason, gameName := gameName, startedAt := now
          notificationsSent := 1, maxNotifications := 30
          acknowledged := false }
      { result := some alert
        alerts := alerts ++ [alert]
        loopsInstalled := [newId] }

/-- Result of `restoreActiveLoops`. -/
structure RestoreResult where
  alerts : List ActiveAlert
  loopsInstalled : List String
  deriving Repr, DecidableEq

/-- Ten minutes in milliseconds. -/
def staleAlertCutoffMs : Nat := 10 * 60 * 1000

/-- `AlertLoopService.restoreActiveLoops()`: the body intends to select
the unacknowledged alerts below their notification cap, reinstall the
interval of those younger than ten minutes and acknowledge the rest, but
the `findMany` filter is built by calling `prisma.raw`, which is not a
method of PrismaClient; evaluating the query argument therefore throws a
TypeError before any store access, the surrounding try/catch logs the
error and returns, so at runtime the operation reads and writes nothing
and installs no interval. -/
def restoreActiveLoops (alerts : List ActiveAlert) (now : Nat) :
    RestoreResult :=
  { alerts := alerts, loopsInstalled := [] }

/-- Driver iterating `checkRateLimit` over a list of arrival times,
collecting the per-message decisions and the final window state. -/
def runRateChecks (st : RateState) (clientId mtype : String) :
    List Nat → List Bool × RateState
  | [] => ([], st)
  | t :: ts =>
    let first := checkRateLimit st clientId mtype t
    let rest := runRateChecks first.2 clientId mtype ts
    (first.1 :: rest.1, rest.2)

/-- The per-user uniqueness invariant on unacknowledged ActiveAlerts. -/
def atMostOneUnacknowledged (alerts : List ActiveAlert) : Prop :=
  ∀ a ∈ alerts, ∀ b ∈ alerts,
    a.acknowledged = false → b.acknowledged = false →
    a.userId = b.userId → a = b

/-! ### Concrete fixtures used by counterexamples and witnesses -/

/-- A consumer socket of user `userA`. -/
def cmdConsumerA : ClientInfo :=
  { id := "cA", ctype := some ClientType.mobile
    userId := some "userA", hubId := none
    sessionId := none, authenticated := true }

/-- A producer socket of user `userB` holding session `SB`. -/
def cmdProducerB : ClientInfo :=
  { id := "cB", ctype := some ClientType.roblox
    userId := some "userB", hubId := some "H"
    sessionId := some "SB", authenticated := true }

/-- Router clients map with the two sockets above. -/
def cmdClients : List (Socket × ClientInfo) :=
  [(1, cmdConsumerA), (2, cmdProducerB)]

/-- A producer socket of user `userA` holding session `S`, client `c1`. -/
def closeProducer : ClientInfo :=
  { id := "c1", ctype := some ClientType.roblox
    userId := some "userA", hubId := some "H"
    sessionId := some "S", authenticated := true }

/-- A consumer socket of user `userA`. -/
def closeConsumer : ClientInfo :=
  { id := "cM", ctype := some ClientType.mobile
    userId := some "userA", hubId := none
    sessionId := none, authenticated := true }

/-- Clients map before the abrupt close of socket 1. -/
def closeClients : List (Socket × ClientInfo) :=
  [(1, closeProducer), (2, closeConsumer)]

/-- The pending heartbeat timer of client `c1`, due at 30000. -/
def closeTimers : TimerMap :=
  [("c1", { sessionId := "S", userId := "userA", deadline := 30000 })]

/-- The session of client `c1` as the timeout path loads it. -/
def closeSession : TimeoutSession :=
  { id := "S", userId := "userA", gameName := some "G"
    currentStatus := some "Farming"
    user := { id := "userA", username := "alice", alertSound := none
              quietHoursEnabled := false, quietHoursStart := none
              quietHoursEnd := none, lifeOrDeathMode := false }
    hubName := some "Hub" }

/-- A session row already in the TIMEOUT state. -/
def timedOutRow : SessionRow :=
  { id := "S1", userId := "U1", wsClientId := "c1"
    status := SessionStatus.TIMEOUT
    disconnectReason := some "TIMEOUT"
    disconnectMessage := some "Heartbeat timeout" }

/-- A user with overnight quiet hours 23:00 - 07:00. -/
def quietUser : TimeoutUser :=
  { id := "uq", username := "quinn", alertSound := some "alarm"
    quietHoursEnabled := true, quietHoursStart := some "23:00"
    quietHoursEnd := some "07:00", lifeOrDeathMode := false }

/-- A session of `quietUser`. -/
def quietSession : TimeoutSession :=
  { id := "SQ", userId := "uq", gameName := some "G"
    currentStatus := some "Farming", user := quietUser
    hubName := some "Hub" }

/-- A user with quiet hours enabled but no start time configured. -/
def halfQuietUser : TimeoutUser :=
  { id := "uh", username := "hana", alertSound := none
    quietHoursEnabled := true, quietHoursStart := none
    quietHoursEnd := some "07:00", lifeOrDeathMode := false }

/-- A session of `halfQuietUser`. -/
def halfQuietSession : TimeoutSession :=
  { id := "SH", userId := "uh", gameName := some "G"
    currentStatus := none, user := halfQuietUser
    hubName := some "Hub" }

/-- A young unacknowledged ActiveAlert below its cap. -/
def youngAlert : ActiveAlert :=
  { id := "A2", userId := "V", sessionId := "S2", reason := "r2"
    gameName := "g2", startedAt := 9500000, notificationsSent := 3
    maxNotifications := 30, acknowledged := false }

/-- An unacknowledged below-cap ActiveAlert older than ten minutes at
time 10000000. -/
def staleBelowCapAlert : ActiveAlert :=
  { id := "A3", userId := "W", sessionId := "S3", reason := "r3"
    gameName := "g3", startedAt := 0, notificationsSent := 3
    maxNotifications := 30, acknowledged := false }

/-- A producer client used by the rate-limit and regeneration fixtures. -/
def statusProducer : ClientInfo :=
  { id := "cP", ctype := some ClientType.roblox
    userId := some "userA", hubId := some "H"
    sessionId := some "SP", authenticated := true }

/-- Session rows of one user in each state, plus another user's row. -/
def regenDb : List SessionRow :=
  [{ id := "S1", userId := "U", wsClientId := "c1"
     status := SessionStatus.ACTIVE
     disconnectReason := none, disconnectMessage := none },
   { id := "S2", userId := "U", wsClientId := "c2"
     status := SessionStatus.TIMEOUT
     disconnectReason := some "TIMEOUT"
     disconnectMessage := some "Heartbeat timeout" },
   { id := "S3", userId := "W", wsClientId := "c3"
     status := SessionStatus.ACTIVE
     disconnectReason := none, disconnectMessage := none }]

/-! ## Theorems -/

/-- C1: the claim as stated is false at a concrete input: consumer `cA`
of user `userA` commands session `SB`, which belongs to user `userB`'s
connected producer; the router forwards the command to that producer and
acknowledges with `command_sent` instead of replying SESSION_NOT_FOUND,
although the two users differ. -/
theorem command_cross_user_counterexample :
    handleCommand cmdClients 1 cmdConsumerA (some "SB") (some "stop") none
      = [(2, Frame.command "stop" none), (1, Frame.commandSent "SB")]
    ∧ (2, Frame.command "stop" none)
        ∈ handleCommand cmdClients 1 cmdConsumerA (some "SB") (some "stop") none
    ∧ handleCommand cmdClients 1 cmdConsumerA (some "SB") (some "stop") none
        ≠ [(1, Frame.errorFrame "SESSION_NOT_FOUND" "Session not connected")]
    ∧ cmdConsumerA.userId ≠ cmdProducerB.userId := by
  decide

/-- C1 (amended): `handleCommand` locates the producer by session id and
producer role alone, with no same-user check: whenever some connected
producer socket holds the session id the command is forwarded there and
acknowledged, whatever the owning users are, and SESSION_NOT_FOUND is
returned exactly when no connected producer socket holds that id. -/
theorem command_forwarding_ignores_user
    (clients : List (Socket × ClientInfo)) (ws : Socket)
    (client : ClientInfo) (sid cmd : String) (data : Option String)
    (hauth : client.authenticated = true)
    (hmob : client.ctype = some ClientType.mobile)
    (hsid : sid.data.isEmpty = false) (hcmd : cmd.data.isEmpty = false) :
    (∀ t, clients.find? (fun e =>
          e.2.sessionId = some sid && e.2.ctype = some ClientType.roblox)
            = some t →
        handleCommand clients ws client (some sid) (some cmd) data
            = [(t.1, Frame.command cmd data), (ws, Frame.commandSent sid)]
          ∧ t.2.sessionId = some sid ∧ t.2.ctype = some ClientType.roblox)
    ∧ (clients.find? (fun e =>
          e.2.sessionId = some sid && e.2.ctype = some ClientType.roblox)
            = none →
        handleCommand clients ws client (some sid) (some cmd) data
          = [(ws, Frame.errorFrame "SESSION_NOT_FOUND"
              "Session not connected")]) := by
  constructor
  · intro t ht
    have hp := List.find?_some ht
    simp only [Bool.and_eq_true, decide_eq_true_eq] at hp
    refine ⟨?_, hp.1, hp.2⟩
    simp [handleCommand, hauth, hmob, jsTruthy, hsid, hcmd, ht]
  · intro hn
    simp [handleCommand, hauth, hmob, jsTruthy, hsid, hcmd, hn]

/-- C1 witness: the amended forwarding theorem applied at the concrete
cross-user state. -/
theorem command_forwarding_witness :
    handleCommand cmdClients 1 cmdConsumerA (some "SB") (some "stop") none
      = [(2, Frame.command "stop" none), (1, Frame.commandSent "SB")] :=
  ((command_forwarding_ignores_user cmdClients 1 cmdConsumerA "SB" "stop" none
      rfl rfl rfl rfl).1 (2, cmdProducerB) (by decide)).1

/-- C4: the claim as stated is false at a concrete input: a session row
already in the TIMEOUT state is not left unchanged by
`disconnectSession`; its status, disconnect reason and disconnect
message are overwritten. -/
theorem disconnect_overwrites_counterexample :
    (disconnectSession [timedOutRow] "c1" "MANUAL" (some "user stop")).2
      = [{ id := "S1", userId := "U1", wsClientId := "c1"
           status := SessionStatus.DISCONNECTED
           disconnectReason := some "MANUAL"
           disconnectMessage := some "user stop" }]
    ∧ timedOutRow.status = SessionStatus.TIMEOUT
    ∧ (disconnectSession [timedOutRow] "c1" "MANUAL" (some "user stop")).2
        ≠ [timedOutRow] := by
  decide

/-- C4 (amended): the disconnect operations check only that the session
exists, not that it is active: any found session - including one already
disconnected or timed out - is transitioned to DISCONNECTED with the
given reason and message, sessions with a different key are untouched,
and a missing key leaves the store unchanged. -/
theorem disconnect_any_state
    (db : List SessionRow) (wsid sid reason : String) (msg : Option String) :
    (∀ s ∈ db, s.wsClientId = wsid →
        disconnectWrite reason msg s ∈ (disconnectSession db wsid reason msg).2)
    ∧ (∀ s ∈ db, s.wsClientId ≠ wsid →
        s ∈ (disconnectSession db wsid reason msg).2)
    ∧ (db.find? (fun s => s.wsClientId = wsid) = none →
        (disconnectSession db wsid reason msg).2 = db)
    ∧ (∀ s ∈ db, s.id = sid →
        disconnectWrite reason msg s ∈ (disconnectSessionById db sid reason msg).2)
    ∧ (∀ s ∈ db, s.id ≠ sid →
        s ∈ (disconnectSessionById db sid reason msg).2) := by
  refine ⟨?_, ?_, ?_, ?_, ?_⟩
  · intro s hs hw
    unfold disconnectSession
    cases hfind : db.find? (fun r => r.wsClientId = wsid) with
    | none =>
      exact absurd hw (by simpa using List.find?_eq_none.mp hfind s hs)
    | some r =>
      exact List.mem_map.mpr ⟨s, hs, by simp [hw]⟩
  · intro s hs hw
    unfold disconnectSession
    cases hfind : db.find? (fun r => r.wsClientId = wsid) with
    | none => exact hs
    | some r => exact List.mem_map.mpr ⟨s, hs, by simp [hw]⟩
  · intro hfind
    unfold disconnectSession
    rw [hfind]
  · intro s hs hw
    unfold disconnectSessionById
    cases hfind : db.find? (fun r => r.id = sid) with
    | none =>
      exact absurd hw (by simpa using List.find?_eq_none.mp hfind s hs)
    | some r =>
      exact List.mem_map.mpr ⟨s, hs, by simp [hw]⟩
  · intro s hs hw
    unfold disconnectSessionById
    cases hfind : db.find? (fun r => r.id = sid) with
    | none => exact hs
    | some r => exact List.mem_map.mpr ⟨s, hs, by simp [hw]⟩

/-- C4 witness: the amended disconnect theorem applied to the store
holding only the timed-out row. -/
theorem disconnect_any_state_witness :
    disconnectWrite "MANUAL" (some "user stop") timedOutRow
      ∈ (disconnectSession [timedOutRow] "c1" "MANUAL" (some "user stop")).2 :=
  (disconnect_any_state [timedOutRow] "c1" "S1" "MANUAL" (some "user stop")).1
    timedOutRow (by decide) rfl

/-- C2: the claim as stated is false at a concrete input: after the
abrupt close of producer socket 1 (client `c1`, session `S`), the
`session_connection_lost` frame is emitted, but the heartbeat timer map
is unchanged - no check due after a 5 s grace period exists, only the
original timer. A reconnect within the grace period (fresh monitor for
client `c2`) does not cancel the prior timer for `c1`, and when that
timer fires the timeout path completes with an alert - a timeout occurs
despite the reconnect. -/
theorem close_no_grace_counterexample :
    (handleClose closeClients closeTimers 1).sends
      = [(2, Frame.sessionConnectionLost (some "S"))]
    ∧ (handleClose closeClients closeTimers 1).heartbeatTimers = closeTimers
    ∧ ("c1", { sessionId := "S", userId := "userA", deadline := 30000 })
        ∈ startHeartbeatMonitor
            (handleClose closeClients closeTimers 1).heartbeatTimers
            "c2" "S2" "userA" 6000 30000
    ∧ (handleTimeout (some closeSession) 540
        { success := true, resultsSerialized := "" }).2
      = some { alertSent := true, quietHours := false } := by
  decide

/-- C2 (amended): on abrupt close of an authenticated producer socket
the router fans `session_connection_lost` out to the user's consumers
immediately and removes the socket, but schedules nothing and leaves the
heartbeat timer map untouched, so the pending timer of the closed client
keeps running; the grace-period check of the claim exists only in
`DeadMansSwitchService.handleAbruptDisconnect`, whose deferred check
invokes the timeout path exactly when the session is not freshly
monitored and its connection record still exists. -/
theorem close_leaves_heartbeat_timer
    (clients : List (Socket × ClientInfo)) (timers : TimerMap)
    (ws : Socket) (e : Socket × ClientInfo)
    (hfind : clients.find? (fun c => c.1 = ws) = some e)
    (hrb : e.2.ctype = some ClientType.roblox)
    (hauth : e.2.authenticated = true) :
    (handleClose clients timers ws).sends
      = notifyMobileApps clients e.2.userId
          (Frame.sessionConnectionLost e.2.sessionId)
    ∧ (handleClose clients timers ws).heartbeatTimers = timers
    ∧ (∀ monitored : List String, ∀ sid : String, ∀ conn : Bool,
        abruptDisconnectCheck monitored sid conn = true
          ↔ monitored.contains sid = false ∧ conn = true) := by
  refine ⟨?_, ?_, ?_⟩
  · simp [handleClose, hfind, hrb, hauth]
  · simp [handleClose, hfind]
  · intro monitored sid conn
    unfold abruptDisconnectCheck
    cases hmem : monitored.contains sid <;> simp

/-- C2 witness: the amended close theorem applied at the concrete state
of the counterexample; the heartbeat timers survive the close. -/
theorem close_leaves_heartbeat_timer_witness :
    (handleClose closeClients closeTimers 1).heartbeatTimers = closeTimers :=
  (close_leaves_heartbeat_timer closeClients closeTimers 1 (1, closeProducer)
    (by decide) rfl rfl).2.1

/-- C9: `regenerateUserToken` disconnects, within the same operation,
every previously ACTIVE session of the user with reason TOKEN_REVOKED;
sessions of other users or in other states are untouched, no ACTIVE
session of the user survives in the returned store, and the new token is
the one returned. -/
theorem regenerate_token_revokes_sessions
    (db : List SessionRow) (users : List UserRow) (uid tok : String) :
    (∀ s ∈ db, s.userId = uid → s.status = SessionStatus.ACTIVE →
        { s with status := SessionStatus.DISCONNECTED
                 disconnectReason := some "TOKEN_REVOKED"
                 disconnectMessage := some "User token regenerated" }
          ∈ (regenerateUserToken db users uid tok).sessions)
    ∧ (∀ s ∈ db, s.userId ≠ uid ∨ s.status ≠ SessionStatus.ACTIVE →
        s ∈ (regenerateUserToken db users uid tok).sessions)
    ∧ (∀ s ∈ (regenerateUserToken db users uid tok).sessions,
        s.userId = uid → s.status ≠ SessionStatus.ACTIVE)
    ∧ (regenerateUserToken db users uid tok).userToken = tok := by
  refine ⟨?_, ?_, ?_, rfl⟩
  · intro s hs hu ha
    exact List.mem_map.mpr ⟨s, hs, by simp [hu, ha]⟩
  · intro s hs hor
    refine List.mem_map.mpr ⟨s, hs, ?_⟩
    rcases hor with h | h <;> simp [h]
  · intro s hs hu
    rcases List.mem_map.mp hs with ⟨b, hb, hbe⟩
    subst hbe
    by_cases hbu : b.userId = uid
    · by_cases hba : b.status = SessionStatus.ACTIVE
      · simp [hbu, hba]
      · simp [hba]
    · simp [hbu] at hu

/-- C9 witness: the regeneration theorem applied at a concrete store;
the previously active session of user U is revoked. -/
theorem regenerate_token_revokes_sessions_witness :
    { id := "S1", userId := "U", wsClientId := "c1"
      status := SessionStatus.DISCONNECTED
      disconnectReason := some "TOKEN_REVOKED"
      disconnectMessage := some ("User token regenerated" : String) }
      ∈ (regenerateUserToken regenDb [{ id := "U", userToken := "OLD123" }]
          "U" "NEW456").sessions := by
  have h := (regenerate_token_revokes_sessions regenDb
    [{ id := "U", userToken := "OLD123" }] "U" "NEW456").1
    { id := "S1", userId := "U", wsClientId := "c1"
      status := SessionStatus.ACTIVE
      disconnectReason := none, disconnectMessage := none }
    (by decide) rfl rfl
  simpa using h

/-- A string that parses as `HH:MM` is nonempty. -/
theorem parseMinutesOfDay_ne_nil (s : String) (sm : Nat)
    (h : parseMinutesOfDay s = some sm) : s.data.isEmpty = false := by
  cases hd : s.data with
  | nil =>
    unfold parseMinutesOfDay at h
    rw [hd] at h
    simp [splitCharsOn] at h
  | cons c cs => simp

/-- C3: quiet-hours suppression. With quiet hours enabled and start/end
parsing to minutes `sm`, `em`: the in-window predicate is
`sm ≤ m < em` when `sm ≤ em` and wraps overnight (`m ≥ sm` or `m < em`)
when `sm > em`; a timeout inside the window only transitions the session
to TIMEOUT with the quiet-hours message and `alertSent = false`,
returning the QUIET_HOURS outcome with no push fan-out, while a timeout
outside the window reports `alertSent = true` and performs the critical
push fan-out. -/
theorem quiet_hours_suppression (session : TimeoutSession) (m sm em : Nat)
    (s e : String) (res : AlertSendResult)
    (hen : session.user.quietHoursEnabled = true)
    (hs : session.user.quietHoursStart = some s)
    (he : session.user.quietHoursEnd = some e)
    (hps : parseMinutesOfDay s = some sm)
    (hpe : parseMinutesOfDay e = some em) :
    (isQuietHours session.user m = true ↔
      (if sm ≤ em then sm ≤ m ∧ m < em else sm ≤ m ∨ m < em))
    ∧ ((if sm ≤ em then sm ≤ m ∧ m < em else sm ≤ m ∨ m < em) →
        handleTimeout (some session) m res =
          ([TimeoutEffect.sessionUpdated session.id
              { status := SessionStatus.TIMEOUT
                disconnectReason := "TIMEOUT"
                disconnectMessage := "Heartbeat timeout (quiet hours - no alert)"
                alertSent := false
                alertDelivered := none
                alertError := none }],
           some { alertSent := false, quietHours := true }))
    ∧ (¬(if sm ≤ em then sm ≤ m ∧ m < em else sm ≤ m ∨ m < em) →
        (handleTimeout (some session) m res).2
            = some { alertSent := true, quietHours := false }
        ∧ TimeoutEffect.pushCritical
            { sessionId := session.id
              gameName := orDefault session.gameName "Unknown Game"
              hubName := orDefault session.hubName "Unknown Script"
              reason := "Connection lost - possible crash, kick, or internet failure"
              lastStatus := session.currentStatus
              alertSound := session.user.alertSound }
          ∈ (handleTimeout (some session) m res).1) := by
  have hsne : s.data.isEmpty = false := parseMinutesOfDay_ne_nil s sm hps
  have hene : e.data.isEmpty = false := parseMinutesOfDay_ne_nil e em hpe
  have hqh : isQuietHours session.user m
      = (if sm > em then decide (m ≥ sm) || decide (m < em)
         else decide (m ≥ sm) && decide (m < em)) := by
    unfold isQuietHours
    rw [hen, hs, he]
    simp [jsTruthy, hsne, hene, hps, hpe]
  have hiff : isQuietHours session.user m = true ↔
      (if sm ≤ em then sm ≤ m ∧ m < em else sm ≤ m ∨ m < em) := by
    rw [hqh]
    by_cases hle : sm ≤ em
    · rw [if_neg (by omega), if_pos hle]
      simp [ge_iff_le]
    · rw [if_pos (by omega), if_neg hle]
      simp [ge_iff_le]
  refine ⟨hiff, ?_, ?_⟩
  · intro hw
    have hq : isQuietHours session.user m = true := hiff.mpr hw
    simp [handleTimeout, hen, hq]
  · intro hw
    have hq : isQuietHours session.user m = false := by
      cases hqb : isQuietHours session.user m
      · rfl
      · exact absurd (hiff.mp hqb) hw
    refine ⟨by simp [handleTimeout, hen, hq], ?_⟩
    simp [handleTimeout, hen, hq]

/-- C3 witness: overnight window 23:00 - 07:00; at 04:30 (minute 270)
the alert is suppressed with the quiet-hours transition, and the window
characterisation holds at that instant. -/
theorem quiet_hours_suppression_witness :
    handleTimeout (some quietSession) 270 { success := true, resultsSerialized := "" } =
      ([TimeoutEffect.sessionUpdated "SQ"
          { status := SessionStatus.TIMEOUT
            disconnectReason := "TIMEOUT"
            disconnectMessage := "Heartbeat timeout (quiet hours - no alert)"
            alertSent := false
            alertDelivered := none
            alertError := none }],
       some { alertSent := false, quietHours := true }) :=
  (quiet_hours_suppression quietSession 270 1380 420 "23:00" "07:00"
      { success := true, resultsSerialized := "" }
      rfl rfl rfl (by decide) (by decide)).2.1
    (by simp)

/-- C10: a user with quiet hours enabled but a missing or empty start or
end is never inside quiet hours, so a heartbeat timeout behaves exactly
as for a user with quiet hours disabled: identical effect trace, the
error-level timeout log first, the critical push fan-out present, and
`alertSent = true` in the outcome. -/
theorem quiet_hours_missing_bounds (session : TimeoutSession) (m : Nat)
    (res : AlertSendResult)
    (hen : session.user.quietHoursEnabled = true)
    (hmiss : session.user.quietHoursStart = none
      ∨ session.user.quietHoursStart = some ""
      ∨ session.user.quietHoursEnd = none
      ∨ session.user.quietHoursEnd = some "") :
    isQuietHours session.user m = false
    ∧ handleTimeout (some session) m res
        = handleTimeout (some { session with
            user := { session.user with quietHoursEnabled := false } }) m res
    ∧ (handleTimeout (some session) m res).2
        = some { alertSent := true, quietHours := false }
    ∧ ((handleTimeout (some session) m res).1).head?
        = some (TimeoutEffect.logCreated "error"
            ("🚨 TIMEOUT: " ++ orDefault session.gameName "Unknown Game"
              ++ " - Connection lost (possible crash, kick, or internet failure)"))
    ∧ TimeoutEffect.pushCritical
        { sessionId := session.id
          gameName := orDefault session.gameName "Unknown Game"
          hubName := orDefault session.hubName "Unknown Script"
          reason := "Connection lost - possible crash, kick, or internet failure"
          lastStatus := session.currentStatus
          alertSound := session.user.alertSound }
      ∈ (handleTimeout (some session) m res).1 := by
  have hq : isQuietHours session.user m = false := by
    unfold isQuietHours
    rcases hmiss with h | h | h | h <;> simp [jsTruthy, h]
  refine ⟨hq, ?_, ?_, ?_, ?_⟩
  · simp [handleTimeout, hen, hq]
  · simp [handleTimeout, hen, hq]
  · simp [handleTimeout, hen, hq]
  · simp [handleTimeout, hen, hq]

/-- C10 witness: the missing-bounds theorem applied to the user with no
configured start; the timeout outcome carries `alertSent = true`. -/
theorem quiet_hours_missing_bounds_witness :
    (handleTimeout (some halfQuietSession) 270
        { success := true, resultsSerialized := "" }).2
      = some { alertSent := true, quietHours := false } :=
  (quiet_hours_missing_bounds halfQuietSession 270
      { success := true, resultsSerialized := "" }
      rfl (Or.inl rfl)).2.2.1

/-- C5: on a heartbeat timeout outside quiet hours the effects occur in
program order: the error-level SessionLog first, the critical push
fan-out with the full payload second, and the session persistence of
`alertSent = true` together with the TIMEOUT transition and the
serialized error last; every store write of the session follows the push
fan-out in the trace, so the fan-out is attempted even when that
subsequent persistence fails. -/
theorem timeout_alert_ordering (session : TimeoutSession) (m : Nat)
    (res : AlertSendResult)
    (hq : (session.user.quietHoursEnabled
      && isQuietHours session.user m) = false) :
    ((handleTimeout (some session) m res).1).head?
      = some (TimeoutEffect.logCreated "error"
          ("🚨 TIMEOUT: " ++ orDefault session.gameName "Unknown Game"
            ++ " - Connection lost (possible crash, kick, or internet failure)"))
    ∧ ((handleTimeout (some session) m res).1)[1]?
      = some (TimeoutEffect.pushCritical
          { sessionId := session.id
            gameName := orDefault session.gameName "Unknown Game"
            hubName := orDefault session.hubName "Unknown Script"
            reason := "Connection lost - possible crash, kick, or internet failure"
            lastStatus := session.currentStatus
            alertSound := session.user.alertSound })
    ∧ ((handleTimeout (some session) m res).1).getLast?
      = some (TimeoutEffect.sessionUpdated session.id
          { status := SessionStatus.TIMEOUT
            disconnectReason := "TIMEOUT"
            disconnectMessage := "Heartbeat timeout"
            alertSent := true
            alertDelivered := some res.success
            alertError := if res.success then none
                          else some res.resultsSerialized })
    ∧ (∀ (i : Nat) (sid : String) (d : SessionUpdateData),
        ((handleTimeout (some session) m res).1)[i]?
          = some (TimeoutEffect.sessionUpdated sid d) →
        ∃ j : Nat, j < i ∧ ((handleTimeout (some session) m res).1)[j]?
          = some (TimeoutEffect.pushCritical
              { sessionId := session.id
                gameName := orDefault session.gameName "Unknown Game"
                hubName := orDefault session.hubName "Unknown Script"
                reason := "Connection lost - possible crash, kick, or internet failure"
                lastStatus := session.currentStatus
                alertSound := session.user.alertSound })) := by
  cases hl : session.user.lifeOrDeathMode
  · refine ⟨by simp [handleTimeout, hq, hl], by simp [handleTimeout, hq, hl],
      by simp [handleTimeout, hq, hl], ?_⟩
    intro i sid d h
    simp only [handleTimeout, hq, hl] at h ⊢
    rcases i with _ | _ | _ | i <;> simp_all <;> exact ⟨1, by omega, by simp⟩
  · refine ⟨by simp [handleTimeout, hq, hl], by simp [handleTimeout, hq, hl],
      by simp [handleTimeout, hq, hl], ?_⟩
    intro i sid d h
    simp only [handleTimeout, hq, hl] at h ⊢
    rcases i with _ | _ | _ | _ | i <;> simp_all <;> exact ⟨1, by omega, by simp⟩

/-- C5 witness: the ordering theorem applied at the concrete session of
the close fixture (quiet hours disabled); the push fan-out sits at
index 1 of the trace. -/
theorem timeout_alert_ordering_witness :
    ((handleTimeout (some closeSession) 540
        { success := false, resultsSerialized := "boom" }).1)[1]?
      = some (TimeoutEffect.pushCritical
          { sessionId := "S"
            gameName := "G"
            hubName := "Hub"
            reason := "Connection lost - possible crash, kick, or internet failure"
            lastStatus := some "Farming"
            alertSound := none }) :=
  (timeout_alert_ordering closeSession 540
      { success := false, resultsSerialized := "boom" } rfl).2.1

/-- C6: at runtime `restoreActiveLoops` restores nothing: for every
store and instant it returns the alerts unchanged and installs no
interval. Evaluated at a boot whose store holds a young below-cap
unacknowledged alert and a stale below-cap unacknowledged alert: the
young alert gets no interval, and the stale alert - though
unacknowledged and older than ten minutes - is not marked acknowledged,
against the claimed restore behavior. -/
theorem restore_noop_code_bug :
    (∀ (alerts : List ActiveAlert) (now : Nat),
        restoreActiveLoops alerts now
          = { alerts := alerts, loopsInstalled := [] })
    ∧ (restoreActiveLoops [youngAlert, staleBelowCapAlert] 10000000).alerts
        = [youngAlert, staleBelowCapAlert]
    ∧ (restoreActiveLoops [youngAlert, staleBelowCapAlert]
        10000000).loopsInstalled = []
    ∧ youngAlert.acknowledged = false
    ∧ youngAlert.notificationsSent < youngAlert.maxNotifications
    ∧ 10000000 - youngAlert.startedAt < staleAlertCutoffMs
    ∧ staleBelowCapAlert.acknowledged = false
    ∧ staleBelowCapAlert.notificationsSent
        < staleBelowCapAlert.maxNotifications
    ∧ staleAlertCutoffMs ≤ 10000000 - staleBelowCapAlert.startedAt :=
  ⟨fun _ _ => rfl, by decide⟩

/-- C8: `startAlertLoop` preserves per-user uniqueness of unacknowledged
ActiveAlerts and behaves as specified: it returns `null` unless
lifeOrDeathMode is still enabled, returns an existing unacknowledged
alert of the user unchanged without touching the store or installing a
loop, and only otherwise persists a new alert with
`notificationsSent = 1` and installs its interval. -/
theorem alert_loop_start_unique (lod : Option Bool)
    (alerts : List ActiveAlert) (uid sid reason game newId : String)
    (now : Nat) :
    (lod ≠ some true →
        startAlertLoop lod alerts uid sid reason game newId now
          = { result := none, alerts := alerts, loopsInstalled := [] })
    ∧ (∀ a, lod = some true →
        alerts.find? (fun a => a.userId = uid && !a.acknowledged) = some a →
        startAlertLoop lod alerts uid sid reason game newId now
          = { result := some a, alerts := alerts, loopsInstalled := [] })
    ∧ (lod = some true →
        alerts.find? (fun a => a.userId = uid && !a.acknowledged) = none →
        startAlertLoop lod alerts uid sid reason game newId now
          = { result := some
                { id := newId, userId := uid, sessionId := sid
                  reason := reason, gameName := game, startedAt := now
                  notificationsSent := 1, maxNotifications := 30
                  acknowledged := false }
              alerts := alerts ++
                [{ id := newId, userId := uid, sessionId := sid
                   reason := reason, gameName := game, startedAt := now
                   notificationsSent := 1, maxNotifications := 30
                   acknowledged := false }]
              loopsInstalled := [newId] })
    ∧ (atMostOneUnacknowledged alerts →
        atMostOneUnacknowledged
          (startAlertLoop lod alerts uid sid reason game newId now).alerts) := by
  refine ⟨?_, ?_, ?_, ?_⟩
  · intro hne
    simp [startAlertLoop, hne]
  · intro a hl hf
    simp [startAlertLoop, hl, hf]
  · intro hl hf
    simp [startAlertLoop, hl, hf]
  · intro hinv
    by_cases hl : lod = some true
    · cases hf : alerts.find? (fun a => a.userId = uid && !a.acknowledged) with
      | some a => simpa [startAlertLoop, hl, hf] using hinv
      | none =>
        simp only [startAlertLoop, hl, hf]
        intro a ha b hb hack hbck huv
        simp only [if_neg (by simp : ¬(some true ≠ some true))] at ha hb
        rcases List.mem_append.mp ha with ha' | ha' <;>
          rcases List.mem_append.mp hb with hb' | hb'
        · exact hinv a ha' b hb' hack hbck huv
        · exfalso
          have hbu : b.userId = uid := by
            rcases List.mem_singleton.mp hb' with rfl
            rfl
          have := List.find?_eq_none.mp hf a ha'
          rcases List.mem_singleton.mp hb' with rfl
          simp [huv.trans hbu, hack] at this
        · exfalso
          have hau : a.userId = uid := by
            rcases List.mem_singleton.mp ha' with rfl
            rfl
          have := List.find?_eq_none.mp hf b hb'
          rcases List.mem_singleton.mp ha' with rfl
          simp [(huv.symm).trans hau, hbck] at this
        · rw [List.mem_singleton.mp ha', List.mem_singleton.mp hb']
    · simpa [startAlertLoop, hl] using hinv

/-- C8 witness: the start theorem applied with lifeOrDeathMode enabled
and an empty store; a single alert with one notification is created and
its loop installed, and uniqueness is preserved. -/
theorem alert_loop_start_unique_witness :
    startAlertLoop (some true) [] "U" "S" "r" "g" "A9" 5000
      = { result := some
            { id := "A9", userId := "U", sessionId := "S"
              reason := "r", gameName := "g", startedAt := 5000
              notificationsSent := 1, maxNotifications := 30
              acknowledged := false }
          alerts := [{ id := "A9", userId := "U", sessionId := "S"
                       reason := "r", gameName := "g", startedAt := 5000
                       notificationsSent := 1, maxNotifications := 30
                       acknowledged := false }]
          loopsInstalled := ["A9"] } :=
  (alert_loop_start_unique (some true) [] "U" "S" "r" "g" "A9" 5000).2.2.1
    rfl rfl

/-- First message of a window: the counter is created at 1 with the
window deadline. -/
theorem checkRateLimit_status_empty (cid : String) (t : Nat) :
    checkRateLimit [] cid "status" t
      = (true, [((cid, "status"), { count := 1, resetTime := t + 60000 })]) := by
  simp [checkRateLimit, RATE_LIMITS, rlSet]

/-- A message inside the window below the cap increments the counter. -/
theorem checkRateLimit_status_allow (cid : String) (c r t : Nat)
    (ht : t ≤ r) (hc : c < 6) :
    checkRateLimit [((cid, "status"), { count := c, resetTime := r })]
        cid "status" t
      = (true, [((cid, "status"), { count := c + 1, resetTime := r })]) := by
  simp [checkRateLimit, RATE_LIMITS, rlSet, List.find?,
    Nat.not_lt.mpr ht, Nat.not_le.mpr hc]

/-- A message inside the window at the cap is rejected; the state is
unchanged. -/
theorem checkRateLimit_status_reject (cid : String) (c r t : Nat)
    (ht : t ≤ r) (hc : 6 ≤ c) :
    checkRateLimit [((cid, "status"), { count := c, resetTime := r })]
        cid "status" t
      = (false, [((cid, "status"), { count := c, resetTime := r })]) := by
  simp [checkRateLimit, RATE_LIMITS, List.find?, Nat.not_lt.mpr ht, hc]

/-- A message after the window deadline resets the counter to 1. -/
theorem checkRateLimit_status_reset (cid : String) (c r t : Nat)
    (ht : r < t) :
    checkRateLimit [((cid, "status"), { count := c, resetTime := r })]
        cid "status" t
      = (true, [((cid, "status"), { count := 1, resetTime := t + 60000 })]) := by
  simp [checkRateLimit, RATE_LIMITS, rlSet, List.find?, ht]

/-- C7: the limiter is fixed-window per (clientId, class) with the
claimed defaults (status 6/min, log 30/min, notify 5/min, alert 5/min;
heartbeat and disconnect unrated); of seven status messages inside one
window the first six pass and the seventh is refused, a message after
the window passes again, and `handleStatus` maps a refusal to a single
RATE_LIMITED error frame to the sender - no store write, no consumer
frame, no socket close - while an allowed message is written and fanned
out to the user's consumers. -/
theorem rate_limit_fixed_window
    (cid : String) (t0 t1 t2 t3 t4 t5 t6 : Nat)
    (h1 : t1 ≤ t0 + 60000) (h2 : t2 ≤ t0 + 60000) (h3 : t3 ≤ t0 + 60000)
    (h4 : t4 ≤ t0 + 60000) (h5 : t5 ≤ t0 + 60000) (h6 : t6 ≤ t0 + 60000) :
    (RATE_LIMITS "status" = some { max := 6, windowMs := 60000 }
      ∧ RATE_LIMITS "log" = some { max := 30, windowMs := 60000 }
      ∧ RATE_LIMITS "notify" = some { max := 5, windowMs := 60000 }
      ∧ RATE_LIMITS "alert" = some { max := 5, windowMs := 60000 }
      ∧ RATE_LIMITS "heartbeat" = none
      ∧ RATE_LIMITS "disconnect" = none)
    ∧ (runRateChecks [] cid "status" [t0, t1, t2, t3, t4, t5, t6]).1
        = [true, true, true, true, true, true, false]
    ∧ (∀ t7, t0 + 60000 < t7 →
        (checkRateLimit (runRateChecks [] cid "status"
            [t0, t1, t2, t3, t4, t5, t6]).2 cid "status" t7).1 = true)
    ∧ (∀ (st : RateState) (clients : List (Socket × ClientInfo))
        (ws : Socket) (client : ClientInfo) (status : String) (now : Nat),
        client.authenticated = true →
        client.ctype = some ClientType.roblox →
        (checkRateLimit st client.id "status" now).1 = false →
        handleStatus st clients ws client status now
          = { rateState := (checkRateLimit st client.id "status" now).2
              sends := [(ws, Frame.errorFrame "RATE_LIMITED"
                "Status updates limited to 6 per minute")]
              socketClosed := false
              statusWritten := false })
    ∧ (∀ (st : RateState) (clients : List (Socket × ClientInfo))
        (ws : Socket) (client : ClientInfo) (status : String) (now : Nat),
        client.authenticated = true →
        client.ctype = some ClientType.roblox →
        (checkRateLimit st client.id "status" now).1 = true →
        handleStatus st clients ws client status now
          = { rateState := (checkRateLimit st client.id "status" now).2
              sends := notifyMobileApps clients client.userId
                (Frame.statusUpdate client.sessionId status)
              socketClosed := false
              statusWritten := true }) := by
  have e0 := checkRateLimit_status_empty cid t0
  have e1 := checkRateLimit_status_allow cid 1 (t0 + 60000) t1 h1 (by omega)
  have e2 := checkRateLimit_status_allow cid 2 (t0 + 60000) t2 h2 (by omega)
  have e3 := checkRateLimit_status_allow cid 3 (t0 + 60000) t3 h3 (by omega)
  have e4 := checkRateLimit_status_allow cid 4 (t0 + 60000) t4 h4 (by omega)
  have e5 := checkRateLimit_status_allow cid 5 (t0 + 60000) t5 h5 (by omega)
  have e6 := checkRateLimit_status_reject cid 6 (t0 + 60000) t6 h6 (by omega)
  refine ⟨⟨rfl, rfl, rfl, rfl, rfl, rfl⟩, ?_, ?_, ?_, ?_⟩
  · simp [runRateChecks, e0, e1, e2, e3, e4, e5, e6]
  · intro t7 ht7
    have es : (runRateChecks [] cid "status" [t0, t1, t2, t3, t4, t5, t6]).2
        = [((cid, "status"), { count := 6, resetTime := t0 + 60000 })] := by
      simp [runRateChecks, e0, e1, e2, e3, e4, e5, e6]
    rw [es, checkRateLimit_status_reset cid 6 (t0 + 60000) t7 ht7]
  · intro st clients ws client status now hauth hrb hrej
    rcases hcr : checkRateLimit st client.id "status" now with ⟨b, st2⟩
    rw [hcr] at hrej
    simp only at hrej
    subst hrej
    simp [handleStatus, hauth, hrb, hcr]
  · intro st clients ws client status now hauth hrb hok
    rcases hcr : checkRateLimit st client.id "status" now with ⟨b, st2⟩
    rw [hcr] at hok
    simp only at hok
    subst hok
    simp [handleStatus, hauth, hrb, hcr]

/-- C7 witness: seven status messages from one client within one window;
the limiter passes the first six and refuses the seventh. -/
theorem rate_limit_fixed_window_witness :
    (runRateChecks [] "cP" "status" [0, 100, 200, 300, 400, 500, 600]).1
      = [true, true, true, true, true, true, false] :=
  (rate_limit_fixed_window "cP" 0 100 200 300 400 500 600
    (by omega) (by omega) (by omega) (by omega) (by omega) (by omega)).2.1

end Afkty
